import Mathlib

/-!
Shallow embedding of the field-extraction and heuristic-scoring pipeline
of `app.py` (Research Report Analyzer).

Python strings are `String` / `List Char`, Python floats are `Rat`
(the pipeline only compares exactly representable decimal values),
Python exceptions are `Except String`, and pandas DataFrames are a
`Frame` record of a header row and data rows.  The five `re.search`
patterns are embedded as direct matchers with Python's leftmost-match
semantics; for these patterns greedy matching never needs backtracking
(after the maximal run of `[:\s]*` the next pattern element can never
match a separator character), so the matchers are single-pass.
-/

deriving instance DecidableEq for Except

/-- ASCII lower-casing, the effect of `re.IGNORECASE` on the ASCII
letters appearing in the patterns. -/
def charLowerA (c : Char) : Char :=
  if 'A' ≤ c ∧ c ≤ 'Z' then Char.ofNat (c.toNat + 32) else c

/-- The character class `\s` of Python `re` (Unicode whitespace). -/
def pyIsSpace (c : Char) : Bool :=
  c = ' ' || c = '\t' || c = '\n' || c = '\r' || c = '\x0b' || c = '\x0c' ||
  c = '\x1c' || c = '\x1d' || c = '\x1e' || c = '\x1f' ||
  c = '\x85' || c = '\xa0' || c = ' ' ||
  (' ' ≤ c && c ≤ ' ') ||
  c = ' ' || c = ' ' || c = ' ' || c = ' ' || c = '　'

/-- The character class `[:\s]` used between a field label and its value. -/
def isSep (c : Char) : Bool := c = ':' || pyIsSpace c

/-- Greedy `[:\s]*`. -/
def skipSep (s : List Char) : List Char := s.dropWhile isSep

/-- Greedy `\$?`. -/
def skipDollar : List Char → List Char
  | '$' :: t => t
  | s => s

/-- Match a literal case-insensitively (IGNORECASE), returning the rest. -/
def matchCI : List Char → List Char → Option (List Char)
  | [], s => some s
  | _ :: _, [] => none
  | c :: p, d :: s => if charLowerA c = charLowerA d then matchCI p s else none

/-- Match a literal case-insensitively, returning the matched characters
(in their original case, as `re` captures them) and the rest. -/
def matchCIcap : List Char → List Char → Option (List Char × List Char)
  | [], s => some ([], s)
  | _ :: _, [] => none
  | c :: p, d :: s =>
    if charLowerA c = charLowerA d then
      (matchCIcap p s).map (fun pr => (d :: pr.1, pr.2))
    else none

/-- The numeric capture group `(\d+\.?\d*)` (and with `allowSuffix`,
`(\d+\.?\d*[BM]?)` under IGNORECASE, so lowercase `b`/`m` also match).
Returns the captured characters and the rest, or `none` if there is no
leading digit. -/
def numCap (allowSuffix : Bool) (s : List Char) : Option (List Char × List Char) :=
  match s.span Char.isDigit with
  | ([], _) => none
  | (d1, r1) =>
    let dotRest : List Char × List Char :=
      match r1 with
      | '.' :: t => (['.'], t)
      | _ => ([], r1)
    let d2r := dotRest.2.span Char.isDigit
    let sufRest : List Char × List Char :=
      if allowSuffix then
        match d2r.2 with
        | c :: t => if c = 'B' || c = 'M' || c = 'b' || c = 'm' then ([c], t) else ([], d2r.2)
        | [] => ([], d2r.2)
      else ([], d2r.2)
    some (d1 ++ dotRest.1 ++ d2r.1 ++ sufRest.1, sufRest.2)

/-- Attempt, at the current position, a pattern of the shape
`LABEL[:\s]*\$?(\d+\.?\d*)` (optionally with the `[BM]?` suffix),
returning the captured group. -/
def matchNumField (label : List Char) (allowSuffix : Bool) (s : List Char) : Option String :=
  match matchCI label s with
  | none => none
  | some r1 =>
    match numCap allowSuffix (skipDollar (skipSep r1)) with
    | none => none
    | some (cap, _) => some (String.mk cap)

/-- Attempt, at the current position, `Recommendation[:\s]*(Buy|Sell|Hold)`
under IGNORECASE; the captured group keeps the original case of the text. -/
def matchRecField (s : List Char) : Option String :=
  match matchCI "Recommendation".data s with
  | none => none
  | some r1 =>
    let r2 := skipSep r1
    match matchCIcap "Buy".data r2 with
    | some (cap, _) => some (String.mk cap)
    | none =>
      match matchCIcap "Sell".data r2 with
      | some (cap, _) => some (String.mk cap)
      | none => (matchCIcap "Hold".data r2).map (fun pr => String.mk pr.1)

/-- `re.search`: try the pattern at every position left to right and
return the first success. -/
def pySearch (m : List Char → Option String) : List Char → Option String
  | [] => m []
  | c :: t =>
    match m (c :: t) with
    | some r => some r
    | none => pySearch m t

/-- The `info` dictionary produced by `extract_key_info`. -/
structure Info where
  price_target : String
  recommendation : String
  revenue : String
  net_income : String
  eps : String
deriving DecidableEq, Repr

/-- `extract_key_info`: run the five `re.search` patterns and replace a
missing match by the sentinel string `"Not Found"`. -/
def extract_key_info (text : String) : Info :=
  { price_target := (pySearch (matchNumField "Price Target".data false) text.data).getD "Not Found"
    recommendation := (pySearch matchRecField text.data).getD "Not Found"
    revenue := (pySearch (matchNumField "Revenue".data true) text.data).getD "Not Found"
    net_income := (pySearch (matchNumField "Net Income".data true) text.data).getD "Not Found"
    eps := (pySearch (matchNumField "EPS".data false) text.data).getD "Not Found" }

/-- Numeric value of a list of decimal digits. -/
def natOfDigits (l : List Char) : Nat :=
  l.foldl (fun a c => a * 10 + (c.toNat - 48)) 0

/-- Python `float(s)` restricted to the grammar `\d+(\.\d*)?` that can
reach it in this program; any other string (for example one retaining a
lowercase scale suffix) fails, as `float` raises `ValueError`. -/
def parsePyFloat (s : String) : Option Rat :=
  match s.data.span Char.isDigit with
  | ([], _) => none
  | (d1, rest) =>
    match rest with
    | [] => some (mkRat (natOfDigits d1) 1)
    | '.' :: r2 =>
      match r2.span Char.isDigit with
      | (d2, []) => some (mkRat (natOfDigits d1 * 10 ^ d2.length + natOfDigits d2) (10 ^ d2.length))
      | _ => none
    | _ => none

/-- `re.sub(r'[BM]', '', s)`: case-sensitive, removes only uppercase B and M. -/
def pySubBM (s : String) : String :=
  String.mk (s.data.filter (fun c => !(c = 'B' || c = 'M')))

/-- The sentiment dictionary: label plus confidence. -/
structure Sentiment where
  sentiment : String
  confidence : Rat
deriving DecidableEq, Repr

/-- Model of a pandas DataFrame built as
`pd.DataFrame(rows, columns=header)`. -/
structure Frame where
  columns : List String
  data : List (List String)
deriving DecidableEq, Repr

/-- pandas `DataFrame.empty`: true when either axis has length zero. -/
def Frame.pyEmpty (f : Frame) : Bool := f.data.isEmpty || f.columns.isEmpty

/-- `calculate_investment_score`.  The `float(info["price_target"])` call
sits behind the short-circuit `!= "Not Found"` test and raises
(`Except.error`) when the string does not parse; otherwise the four
fixed-weight contributions are summed, clamped with `min(score, 100)`,
and the risk tier is resolved by the first matching rule. -/
def calculate_investment_score (info : Info) (sentiment : Sentiment) (financials : Frame) :
    Except String (Int × String) :=
  match (if info.price_target ≠ "Not Found" then
          match parsePyFloat info.price_target with
          | none => Except.error ("could not convert string to float: " ++ info.price_target)
          | some v => Except.ok (decide (0 < v))
        else Except.ok false : Except String Bool) with
  | Except.error e => Except.error e
  | Except.ok ptPos =>
    Except.ok
      (min ((if info.recommendation = "Buy" then (30 : Int)
             else if info.recommendation = "Hold" then 15 else 0) +
            (if sentiment.sentiment = "POSITIVE" then 20 else 0) +
            (if ptPos then 20 else 0) +
            (if financials.pyEmpty = false ∧ "Revenue" ∈ financials.columns then 20 else 0)) 100,
       if sentiment.confidence < mkRat 7 10 then "High"
       else if info.recommendation = "Sell" ∨ financials.pyEmpty = true then "High"
       else if 70 < (if info.recommendation = "Buy" then (30 : Int)
             else if info.recommendation = "Hold" then 15 else 0) +
            (if sentiment.sentiment = "POSITIVE" then 20 else 0) +
            (if ptPos then 20 else 0) +
            (if financials.pyEmpty = false ∧ "Revenue" ∈ financials.columns then 20 else 0) then "Low"
       else "Moderate")

/-- The result of `buffet_lynch_analysis`. -/
structure Styles where
  buffett : String
  lynch : String
deriving DecidableEq, Repr

/-- `buffet_lynch_analysis`.  The conditions short-circuit left to right
exactly as the Python `and` chain does; each `float(re.sub(r'[BM]', '', v))`
raises (`Except.error`) when the scale-stripped value does not parse. -/
def buffet_lynch_analysis (info : Info) (financials : Frame) : Except String Styles :=
  match (if info.revenue ≠ "Not Found" then
          match parsePyFloat (pySubBM info.revenue) with
          | none => Except.error ("could not convert string to float: " ++ pySubBM info.revenue)
          | some r =>
            if 1 < r then
              if info.net_income ≠ "Not Found" then
                match parsePyFloat (pySubBM info.net_income) with
                | none => Except.error ("could not convert string to float: " ++ pySubBM info.net_income)
                | some n => Except.ok (decide (0 < n))
              else Except.ok false
            else Except.ok false
        else Except.ok false : Except String Bool) with
  | Except.error e => Except.error e
  | Except.ok b =>
    match (if info.eps ≠ "Not Found" then
            match parsePyFloat info.eps with
            | none => Except.error ("could not convert string to float: " ++ info.eps)
            | some v => Except.ok (decide (0 < v))
          else Except.ok false : Except String Bool) with
    | Except.error e => Except.error e
    | Except.ok l =>
      Except.ok { buffett := if b then "Likely" else "Uncertain"
                  lynch := if l then "Likely" else "Uncertain" }

/-- The result of `assess_growth_and_risks`. -/
structure GrowthRisks where
  growth_prospects : String
  risks : List String
deriving DecidableEq, Repr

/-- `assess_growth_and_risks`: growth outlook plus the list of risk
strings appended by the three independent conditions. -/
def assess_growth_and_risks (info : Info) (sentiment : Sentiment) (financials : Frame) :
    GrowthRisks :=
  { growth_prospects :=
      if sentiment.sentiment = "POSITIVE" ∧ info.recommendation = "Buy" then "High"
      else if info.recommendation = "Sell" then "Low"
      else "Moderate"
    risks :=
      (if sentiment.confidence < mkRat 7 10 then ["Uncertain sentiment"] else []) ++
      (if financials.pyEmpty = true then ["Missing financial data"] else []) ++
      (if info.price_target = "Not Found" then ["No price target provided"] else []) }

/-- One page of a PDF as pdfplumber exposes it: `extract_text()` (which
may return `None`, replaced by `""` in the code) and `extract_tables()`. -/
structure Page where
  text : Option String
  tables : List (List (List String))
deriving DecidableEq, Repr

/-- A PDF handle: either unreadable (opening or extracting raises) or a
document with its pages. -/
inductive PDF where
  | corrupt (msg : String)
  | doc (pages : List Page)
deriving DecidableEq, Repr

/-- `extract_text_from_pdf`: concatenate `page.extract_text() or ""`
over the pages; an unreadable document raises. -/
def extract_text_from_pdf : PDF → Except String String
  | PDF.corrupt msg => Except.error msg
  | PDF.doc pages => Except.ok (pages.foldl (fun acc p => acc ++ p.text.getD "") "")

/-- The page loop of `extract_financial_summary`: the first page whose
table list is non-empty yields `DataFrame(tables[0][1:], columns=tables[0][0])`;
if that first table has no rows at all, `tables[0][0]` raises IndexError;
if no page has tables, the empty DataFrame is returned. -/
def firstFrame : List Page → Except String Frame
  | [] => Except.ok { columns := [], data := [] }
  | p :: ps =>
    match p.tables with
    | [] => firstFrame ps
    | t :: _ =>
      match t with
      | [] => Except.error "IndexError: list index out of range"
      | h :: rows => Except.ok { columns := h, data := rows }

/-- `extract_financial_summary`. -/
def extract_financial_summary : PDF → Except String Frame
  | PDF.corrupt msg => Except.error msg
  | PDF.doc pages => firstFrame pages

/-- `analyze_sentiment`: invoke the external classifier on the first 512
characters.  The classifier is a parameter, the model being external. -/
def analyze_sentiment (classifier : String → Sentiment) (text : String) : Sentiment :=
  classifier (text.take 512)

/-- The dictionary assembled by the orchestrator `Ok`;
`financial_summary` is `none` for the `"Not Found"` branch. -/
structure AnalysisResult where
  key_info : Info
  financial_summary : Option Frame
  sentiment : Sentiment
  investment_score : Int
  risk_level : String
  buffett_likely : String
  lynch_likely : String
  growth_prospects : String
  risks : List String
deriving DecidableEq, Repr

/-- The pipeline orchestrator `Ok`: sequence extraction, field
extraction, table summary, sentiment, scoring, style analysis and
growth/risk assessment.  There is no exception handling in the source,
so any `Except.error` raised by a stage propagates to the caller. -/
def Ok (classifier : String → Sentiment) (pdf : PDF) : Except String AnalysisResult := do
  let text ← extract_text_from_pdf pdf
  let info := extract_key_info text
  let financials ← extract_financial_summary pdf
  let sentiment := analyze_sentiment classifier text
  let sr ← calculate_investment_score info sentiment financials
  let styles ← buffet_lynch_analysis info financials
  let gr := assess_growth_and_risks info sentiment financials
  Except.ok
    { key_info := info
      financial_summary := if financials.pyEmpty then none else some financials
      sentiment := sentiment
      investment_score := sr.1
      risk_level := sr.2
      buffett_likely := styles.buffett
      lynch_likely := styles.lynch
      growth_prospects := gr.growth_prospects
      risks := gr.risks }

/-- Modelled from the spec (section 4.2): the first non-empty table in
page order, used as the specification side of the Table Summarizer
refinement. -/
def specFirstNonemptyTable (pages : List Page) : Option (List (List String)) :=
  ((pages.map Page.tables).flatten).find? (fun t => !t.isEmpty)

section Claims

/-- Concrete inputs used by several witnesses: the fields extracted from
the spec's end-to-end scenario text, a confident positive sentiment, and
the scenario's one-row financial table. -/
def infoScenario : Info :=
  { price_target := "50.", recommendation := "Buy", revenue := "5B",
    net_income := "1B", eps := "2.5" }

def sentPos : Sentiment := { sentiment := "POSITIVE", confidence := mkRat 9 10 }

def sentLow : Sentiment := { sentiment := "POSITIVE", confidence := mkRat 1 2 }

def frameScenario : Frame := { columns := ["Revenue", "Q1"], data := [["100", "200"]] }

/-- A classifier stub that always reports POSITIVE at confidence 0.9,
standing for the external sentiment model in concrete runs. -/
def clPos : String → Sentiment := fun _ => sentPos

/-- The text of the spec's end-to-end scenario 1. -/
def txtScenario : String :=
  "Recommendation: Buy. Price Target: $50. Revenue: $5B. Net Income: $1B. EPS: $2.5"

/-- A one-page document carrying the scenario text and table. -/
def pdfScenario : PDF :=
  PDF.doc [{ text := some txtScenario, tables := [[["Revenue", "Q1"], ["100", "200"]]] }]

/-- A one-page document whose revenue value carries a lowercase scale
suffix: the case-insensitive pattern captures the final letter of
`$5b`, but `re.sub(r'[BM]', '', ...)` does not remove it. -/
def pdfLowercaseB : PDF :=
  PDF.doc [{ text := some "Revenue: $5b. Net Income: $1B.", tables := [] }]

/-- Pages used to instantiate the Table Summarizer refinement: the first
page has no tables, the second has two. -/
def pagesInstance : List Page :=
  [{ text := none, tables := [] },
   { text := some "x", tables := [[["Revenue", "Q1"], ["100", "200"]], [["Z"]]] }]

/-- C1: whenever `calculate_investment_score` returns a score (rather
than raising), that score is an integer in the interval `[0, 100]`, for
every info mapping, sentiment result and financials table. -/
theorem score_in_range (info : Info) (sentiment : Sentiment) (financials : Frame)
    (s : Int) (r : String)
    (h : calculate_investment_score info sentiment financials = Except.ok (s, r)) :
    0 ≤ s ∧ s ≤ 100 := by
  unfold calculate_investment_score at h
  split at h
  · exact absurd h (by simp)
  · rw [Except.ok.injEq, Prod.mk.injEq] at h
    obtain ⟨hs, -⟩ := h
    subst hs
    split_ifs <;> omega

theorem score_in_range_instance :
    calculate_investment_score infoScenario sentPos frameScenario = Except.ok (90, "Low") ∧
      (0 ≤ (90 : Int) ∧ (90 : Int) ≤ 100) :=
  ⟨by decide, score_in_range infoScenario sentPos frameScenario 90 "Low" (by decide)⟩

/-- C2: risk-tier rule 1 has priority — whenever the sentiment
confidence is below 0.7 and the function returns, the risk tier is
`"High"`, regardless of recommendation, table presence, or the score. -/
theorem risk_priority_confidence (info : Info) (sentiment : Sentiment) (financials : Frame)
    (hconf : sentiment.confidence < mkRat 7 10)
    (s : Int) (r : String)
    (h : calculate_investment_score info sentiment financials = Except.ok (s, r)) :
    r = "High" := by
  unfold calculate_investment_score at h
  split at h
  · exact absurd h (by simp)
  · rw [Except.ok.injEq, Prod.mk.injEq] at h
    obtain ⟨-, hr⟩ := h
    rw [if_pos hconf] at hr
    exact hr.symm

/-- Instance of C2 at the spec's inputs: confidence 0.5, recommendation
Buy, table present with a Revenue column, price target positive — the
score is 90 (so rule 3 would give Low) but rule 1 wins and the tier is
High. -/
theorem risk_priority_confidence_instance :
    calculate_investment_score infoScenario sentLow frameScenario = Except.ok (90, "High") ∧
      "High" = "High" :=
  ⟨by decide,
   risk_priority_confidence infoScenario sentLow frameScenario (by decide) 90 "High" (by decide)⟩

/-- C10: the unclamped sum of contributions never exceeds 90
(30+20+20+20), so the `min(score, 100)` clamp is never active and every
returned score lies in `[0, 90]`. -/
theorem score_at_most_ninety (info : Info) (sentiment : Sentiment) (financials : Frame)
    (s : Int) (r : String)
    (h : calculate_investment_score info sentiment financials = Except.ok (s, r)) :
    0 ≤ s ∧ s ≤ 90 := by
  unfold calculate_investment_score at h
  split at h
  · exact absurd h (by simp)
  · rw [Except.ok.injEq, Prod.mk.injEq] at h
    obtain ⟨hs, -⟩ := h
    subst hs
    split_ifs <;> omega

theorem score_at_most_ninety_instance :
    calculate_investment_score infoScenario sentPos frameScenario = Except.ok (90, "Low") ∧
      (0 ≤ (90 : Int) ∧ (90 : Int) ≤ 90) :=
  ⟨by decide, score_at_most_ninety infoScenario sentPos frameScenario 90 "Low" (by decide)⟩

/-- C3: end-to-end on the scenario text with sentiment POSITIVE at 0.9
and the one-row Revenue table, the pipeline returns score 90
(30+20+20+20), risk tier Low, and Likely for both investor-style fits
(together with the extracted fields and the rest of the result). -/
theorem end_to_end_scenario_one :
    Ok clPos pdfScenario = Except.ok
      { key_info := { price_target := "50.", recommendation := "Buy", revenue := "5B",
                      net_income := "1B", eps := "2.5" }
        financial_summary := some { columns := ["Revenue", "Q1"], data := [["100", "200"]] }
        sentiment := { sentiment := "POSITIVE", confidence := mkRat 9 10 }
        investment_score := 90
        risk_level := "Low"
        buffett_likely := "Likely"
        lynch_likely := "Likely"
        growth_prospects := "High"
        risks := [] } := by decide

/-- C5: the orchestrator has no exception handling, so a text-extraction
failure on an unreadable document propagates to the caller as an error
instead of being short-circuited into a marker-filled result. -/
theorem orchestrator_propagates_extraction_error :
    Ok clPos (PDF.corrupt "unreadable document") = Except.error "unreadable document" := by
  decide

/-- C6: a field value that cannot be converted to a number aborts the
whole scoring pass: with revenue captured as `5b`, the case-sensitive
`re.sub` leaves the suffix in place and `float` raises, so the pipeline
returns an error instead of treating the comparison as
condition-not-met and continuing. -/
theorem scoring_aborts_on_lowercase_suffix :
    Ok clPos pdfLowercaseB = Except.error "could not convert string to float: 5b" := by
  decide

/-- C8 counterexample: with every field found, confident sentiment and a
present table, `assess_growth_and_risks` returns an empty risks list —
there is no placeholder entry (and no pros list at all). -/
theorem risks_list_can_be_empty :
    (assess_growth_and_risks infoScenario sentPos frameScenario).risks = [] := by decide

/-- C8 amended: the risks list is empty exactly when none of the three
conditions fires — confidence at least 0.7, table present, price target
found; no placeholder is substituted. -/
theorem risks_empty_conditions (info : Info) (sentiment : Sentiment) (financials : Frame) :
    (assess_growth_and_risks info sentiment financials).risks = [] ↔
      (¬ sentiment.confidence < mkRat 7 10 ∧ financials.pyEmpty = false ∧
        info.price_target ≠ "Not Found") := by
  unfold assess_growth_and_risks
  split_ifs <;> simp_all

theorem risks_empty_conditions_instance :
    (assess_growth_and_risks
      { price_target := "10", recommendation := "Hold", revenue := "2B",
        net_income := "1B", eps := "1.0" }
      { sentiment := "NEGATIVE", confidence := mkRat 8 10 }
      { columns := ["A"], data := [["x"]] }).risks = [] :=
  (risks_empty_conditions _ _ _).mpr ⟨by decide, by decide, by decide⟩

/-- C7: under the assumption that every table the extractor yields has
at least one row, the Table Summarizer returns the first table in page
order — its first row as the column header, the remaining rows as data —
and the explicit empty frame when no page has any table.  The right-hand
side is phrased through the spec-side selector
`specFirstNonemptyTable`. -/
theorem extract_financial_summary_refines_spec (pages : List Page)
    (h : ∀ t ∈ (pages.map Page.tables).flatten, t ≠ []) :
    extract_financial_summary (PDF.doc pages) =
      Except.ok (match specFirstNonemptyTable pages with
        | none => { columns := [], data := [] }
        | some t => { columns := t.headD [], data := t.tail }) := by
  induction pages with
  | nil => rfl
  | cons p ps ih =>
    cases hpt : p.tables with
    | nil =>
      have h2 : ∀ t ∈ (ps.map Page.tables).flatten, t ≠ [] := by
        intro t ht
        exact h t (by simp [hpt, ht])
      have hL : extract_financial_summary (PDF.doc (p :: ps)) =
          extract_financial_summary (PDF.doc ps) := by
        show firstFrame (p :: ps) = firstFrame ps
        rw [firstFrame, hpt]
      have hSpec : specFirstNonemptyTable (p :: ps) = specFirstNonemptyTable ps := by
        unfold specFirstNonemptyTable
        simp [hpt]
      rw [hL, hSpec]
      exact ih h2
    | cons t ts =>
      have ht : t ≠ [] := h t (by simp [hpt])
      cases t with
      | nil => exact absurd rfl ht
      | cons h0 rows =>
        have hSpec : specFirstNonemptyTable (p :: ps) = some (h0 :: rows) := by
          unfold specFirstNonemptyTable
          simp [hpt, List.find?]
        have hL : extract_financial_summary (PDF.doc (p :: ps)) =
            Except.ok { columns := h0, data := rows } := by
          show firstFrame (p :: ps) = _
          rw [firstFrame, hpt]
        rw [hL, hSpec]
        rfl

theorem extract_financial_summary_refines_spec_instance :
    extract_financial_summary (PDF.doc pagesInstance) =
      Except.ok (match specFirstNonemptyTable pagesInstance with
        | none => { columns := [], data := [] }
        | some t => { columns := t.headD [], data := t.tail }) :=
  extract_financial_summary_refines_spec pagesInstance (by decide)

/-- C9: when none of the five configured patterns matches anywhere in
the text, every field of the extracted mapping is the `"Not Found"`
sentinel. -/
theorem all_fields_not_found (text : String)
    (h1 : pySearch (matchNumField "Price Target".data false) text.data = none)
    (h2 : pySearch matchRecField text.data = none)
    (h3 : pySearch (matchNumField "Revenue".data true) text.data = none)
    (h4 : pySearch (matchNumField "Net Income".data true) text.data = none)
    (h5 : pySearch (matchNumField "EPS".data false) text.data = none) :
    extract_key_info text =
      { price_target := "Not Found", recommendation := "Not Found", revenue := "Not Found",
        net_income := "Not Found", eps := "Not Found" } := by
  unfold extract_key_info
  rw [h1, h2, h3, h4, h5]
  rfl

theorem all_fields_not_found_instance :
    extract_key_info "hello world" =
      { price_target := "Not Found", recommendation := "Not Found", revenue := "Not Found",
        net_income := "Not Found", eps := "Not Found" } :=
  all_fields_not_found "hello world" (by decide) (by decide) (by decide) (by decide) (by decide)

/-- If the pattern matches at the current position, `re.search` returns
that match. -/
theorem pySearch_eq_of_match (m : List Char → Option String) (l : List Char) (r : String)
    (h : m l = some r) : pySearch m l = some r := by
  cases l with
  | nil => simpa [pySearch] using h
  | cons c t => simp [pySearch, h]

/-- If the pattern fails at every position inside a prefix, `re.search`
over the whole text equals `re.search` over the remainder. -/
theorem pySearch_append_of_none (m : List Char → Option String) (pre rest : List Char)
    (h : ∀ s ∈ pre.tails, s ≠ [] → m (s ++ rest) = none) :
    pySearch m (pre ++ rest) = pySearch m rest := by
  induction pre with
  | nil => simp
  | cons c a ih =>
    have h0 : m (c :: (a ++ rest)) = none := by
      have hmem : (c :: a) ∈ (c :: a).tails := by
        rw [List.tails_cons]
        exact List.mem_cons_self _ _
      simpa using h (c :: a) hmem (by simp)
    have h2 : ∀ s ∈ a.tails, s ≠ [] → m (s ++ rest) = none := by
      intro s hs hne
      exact h s (by rw [List.tails_cons]; exact List.mem_cons_of_mem _ hs) hne
    calc pySearch m ((c :: a) ++ rest) = pySearch m (a ++ rest) := by
          rw [List.cons_append, pySearch, h0]
      _ = pySearch m rest := ih h2

/-- At the start of the exact phrase `Recommendation: Buy`, the
recommendation pattern matches and captures `Buy` verbatim, whatever
follows. -/
theorem matchRec_phrase (post : List Char) :
    matchRecField ("Recommendation: Buy".data ++ post) = some "Buy" := rfl

/-- C4 counterexample: the captured recommendation keeps the original
letter case, so a text containing `Recommendation: Buy` in a different
case does not resolve to `"Buy"`. -/
theorem recommendation_case_counterexample :
    (extract_key_info "Recommendation: BUY").recommendation = "BUY" ∧
      (extract_key_info "Recommendation: BUY").recommendation ≠ "Buy" := by decide

/-- C4 amended: the recommendation field holds the captured substring in
its original case; in particular, for any text whose first
recommendation-pattern match sits at the exact phrase
`Recommendation: Buy` (no earlier position matches), the field resolves
to `"Buy"`. -/
theorem recommendation_first_match_case_preserving (pre post : List Char)
    (h : ∀ s ∈ pre.tails, s ≠ [] →
      matchRecField (s ++ ("Recommendation: Buy".data ++ post)) = none) :
    (extract_key_info
      (String.mk (pre ++ ("Recommendation: Buy".data ++ post)))).recommendation = "Buy" := by
  show (pySearch matchRecField (pre ++ ("Recommendation: Buy".data ++ post))).getD "Not Found" = "Buy"
  rw [pySearch_append_of_none matchRecField pre _ h,
    pySearch_eq_of_match matchRecField _ "Buy" (matchRec_phrase post)]
  rfl

theorem recommendation_first_match_case_preserving_instance :
    (extract_key_info
      (String.mk ("Intro text. ".data ++
        ("Recommendation: Buy".data ++ " More.".data)))).recommendation = "Buy" :=
  recommendation_first_match_case_preserving "Intro text. ".data " More.".data (by decide)

end Claims
